import Mathlib

/-!
Verification development for the `go-problem` library: a shallow embedding of
its precedence-resolution engine (`Builder` → `Problem`), its namespaced code
codec (`Coder.Build` / `Coder.Parse`), its error-chain unwrapping and matcher
framework, together with theorems settling the specification claims.

Modelling conventions:
* Go strings are Lean `String`; runes are `Char` (the `rune` fields that hold
  raw integers, such as `Generator.CodeSeparator`, are `Int` as in Go).
* Go `nil`-able function fields and maps are `Option`; a `nil` function call
  (a Go panic) is modelled by an `Option` result where `none` is the panic.
* `map[string]any` is an association list `List (String × Nat)`; the `any`
  values are opaque to the resolver, so `Nat` stands in for them.
* Go errors are modelled as their (linear) unwrap chain: a `List Frame`,
  where `[]` plays the role of a `nil` error and a `Frame.prob` link is a
  `*Problem` in the chain whose own wrapped error is the remaining list.
* The external collaborators (stack capture, uuid generation) are an
  oracle `Env` whose functions take the number of calls made so far, so the
  theorems can observe how often the resolver invokes them.
-/

namespace GoProblem

/-! ## Flags and log levels (builder.go, log.go) -/

/-- `Flag` is a bitset (Go `uint8`). -/
abbrev Flag := Nat

/-- FlagDisable disables generation/inheritance of the corresponding data. -/
def FlagDisable : Flag := 0

/-- FlagField exposes the data on the exported Problem field. -/
def FlagField : Flag := 1

/-- FlagLog exposes the data on the log-only attribute. -/
def FlagLog : Flag := 2

/-- checkFlag returns whether `flag` contains `other` (builder.go:633). -/
def checkFlag (flag other : Flag) : Bool := flag &&& other == other

/-- `LogLevel` (Go `uint`); zero is the intentionally unmapped "undefined". -/
abbrev LogLevel := Nat

def LogLevelDebug : LogLevel := 1
def LogLevelInfo : LogLevel := 2
def LogLevelWarn : LogLevel := 3
def LogLevelError : LogLevel := 4

/-- DefaultLogLevel is used when no level could be derived (log.go:70). -/
def DefaultLogLevel : LogLevel := LogLevelError

/-- LogInfo: log-only data carried by a Problem (log.go:32). -/
structure LogInfo where
  Level : LogLevel := 0
  Stack : String := ""
  UUID : String := ""
deriving Repr, DecidableEq

/-! ## Problem and error chains (problem.go) -/

/-- Extensions: `map[string]any`, as an association list with opaque values. -/
abbrev Extensions := List (String × Nat)

/-- The public RFC-9457 fields of a Problem, plus its log-only info.
Go's `Type` field is `TypeUri` here because `Type` is reserved in Lean. -/
structure ProblemFields where
  Code : String := ""
  Detail : String := ""
  Extensions : Option Extensions := none
  Instance : String := ""
  Stack : String := ""
  Status : Int := 0
  Title : String := ""
  TypeUri : String := ""
  UUID : String := ""
  logInfo : LogInfo := {}
deriving Repr, DecidableEq

/-- One link of a Go error chain: either a plain error with a message, or an
embedded `*Problem` (whose own wrapped error is the rest of the chain). -/
inductive Frame where
  | basic (msg : String)
  | prob (pf : ProblemFields)
deriving Repr, DecidableEq

/-- A Go error value as its linear unwrap chain; `[]` is the `nil` error. -/
abbrev GoErr := List Frame

/-- Problem: the immutable result value; `err` is the wrapped error chain. -/
structure Problem extends ProblemFields where
  err : GoErr := []
deriving Repr, DecidableEq

/-- Unwrap returns the error wrapped by the Problem (problem.go:306). -/
def Problem.Unwrap (p : Problem) : GoErr := p.err

/-- DefaultTitle (problem.go:171). -/
def DefaultTitle : String := "Unknown Error"

/-- DefaultTypeURI (type.go:99). -/
def DefaultTypeURI : String := "about:blank"

/-! ## Type, Definition, Generator (type.go, part_004, generator.go) -/

/-- Go's `Type` struct (type.go:35); named `PType` because `Type` is
reserved in Lean. -/
structure PType where
  LogLevel : LogLevel := 0
  Status : Int := 0
  Title : String := ""
  TitleKey : Option String := none
  URI : String := ""
deriving Repr

/-- Definition (part_004:33). Its embedded `Type` field is `DType` here. -/
structure Definition where
  Code : String := ""
  Detail : String := ""
  DetailKey : Option String := none
  Extensions : Option Extensions := none
  Instance : String := ""
  DType : PType := {}
deriving Repr

/-- Generator (generator.go:24). Function-valued collaborators are `Option`
functions (`none` = Go `nil`). Translation keys (`any` in Go) are
`Option String` with `none` for a `nil` key. The `Logger` sink writes to an
external log stream and is not consulted by resolution, so it is omitted.
`UUIDGenerator` is call-indexed (the index is the number of generation calls
made so far) so that repeat invocations are observable. -/
structure Generator where
  CodeNSValidator : Option (String → Bool) := none
  CodeSeparator : Int := 0
  CodeValueLen : Int := 0
  ContentType : String := ""
  LogArgKey : String := ""
  LogLeveler : Option (PType → LogLevel) := none
  StackFlag : Flag := 0
  Translator : Option (Option String → String) := none
  Typer : Option (PType → String) := none
  Unwrapper : Option (GoErr → Problem) := none
  UUIDFlag : Flag := 0
  UUIDGenerator : Option (Nat → String) := none

/-- DefaultGenerator is the zero-valued Generator (generator.go:224). -/
def DefaultGenerator : Generator := {}

/-- context.Context, as far as this library consults it: it may carry a
Generator (part_007:33). -/
structure Ctx where
  gen : Option Generator := none

/-- GetGenerator returns the Generator within the context, if any, otherwise
DefaultGenerator (part_007:33). -/
def GetGenerator (ctx : Ctx) : Generator := ctx.gen.getD DefaultGenerator

/-! ## Shared helpers (builder.go:637-677) -/

/-- firstNonZeroValue returns the first value different from `zero`
(builder.go:648); the Go generic's zero value is passed explicitly. -/
def firstNonZeroValue [DecidableEq α] (zero : α) : List α → α
  | [] => zero
  | v :: rest => if v = zero then firstNonZeroValue zero rest else v

/-- firstNonNilMap returns the first non-nil map (builder.go:638). -/
def firstNonNilMap : List (Option Extensions) → Option Extensions
  | [] => none
  | some m :: _ => some m
  | none :: rest => firstNonNilMap rest

/-- resolveFlag (builder.go:662): no flags means FlagField+FlagLog;
FlagDisable short-circuits. -/
def resolveFlagLoop (res : Flag) : List Flag → Flag
  | [] => res
  | f :: rest =>
    if f = FlagDisable then FlagDisable else resolveFlagLoop (res ||| f) rest

/-- resolveFlag returns an optional Flag based on the given flags
(builder.go:662). -/
def resolveFlag (flags : List Flag) : Option Flag :=
  match flags with
  | [] => some (FlagField ||| FlagLog)
  | _ => some (resolveFlagLoop 0 flags)

/-! ## Translation (i18n.go) -/

/-- translateOrElse (i18n.go:43). This is a faithful embedding of the source,
including its inverted nil-check: when a Translator IS present the default
value is returned without consulting it, and when it is nil the subsequent
call `t(ctx, key)` dereferences a nil function — a Go panic, modelled as
`none`. (The function's own doc comment promises the opposite behaviour.) -/
def Generator.translateOrElse (g : Generator) (_key : Option String)
    (defaultValue : String) : Option String :=
  match g.Translator with
  | some _t => some defaultValue
  | none => none

/-- typeURI (type.go:181): the Typer override, when present, replaces
`Type.URI` entirely — even when it returns an empty string. -/
def Generator.typeURI (g : Generator) (defType : PType) : String :=
  match g.Typer with
  | some t => t defType
  | none => defType.URI

/-- logLevel (log.go:113): the LogLeveler override, when present, replaces
`Type.LogLevel` entirely. -/
def Generator.logLevel (g : Generator) (defType : PType) : LogLevel :=
  match g.LogLeveler with
  | some ll => ll defType
  | none => defType.LogLevel

/-! ## Builder (builder.go) -/

/-- Builder (builder.go:65): the mutable accumulator. `def` is `defn` here
because `def` is reserved in Lean; everything else keeps the Go field name. -/
structure Builder where
  Generator : Option Generator := none
  code : String := ""
  ctx : Option Ctx := none
  defn : Definition := {}
  detail : String := ""
  detailKey : Option String := none
  err : GoErr := []
  extensions : Option Extensions := none
  instanceURI : String := ""
  logLevel : LogLevel := 0
  problem : Problem := {}
  stack : String := ""
  stackFlag : Option Flag := none
  stackFramesSkipped : Int := 0
  status : Int := 0
  title : String := ""
  titleKey : Option String := none
  typeURI : String := ""
  uuid : String := ""
  uuidFlag : Option Flag := none

/-- The external collaborators, as call-indexed oracles: `take i skip` is the
result of the `(i+1)`-th stack capture (internal/stack `stack.Take`), and
`genUUID i` the result of the `(i+1)`-th fallback uuid generation
(`handleUUID(uuid.NewRandom())`, log.go:450). -/
structure Env where
  take : Nat → Int → String
  genUUID : Nat → String

/-- uuid (log.go:450): use `Generator.UUIDGenerator` when present, otherwise
the built-in V4 generation (the env oracle). `uc` is the uuid-call index. -/
def Generator.uuid (g : Generator) (env : Env) (uc : Nat) : String :=
  match g.UUIDGenerator with
  | none => env.genUUID uc
  | some fn => fn uc

/-- getStack (builder.go:564): lazily captured stack trace, cached on the
Builder; priority to a stack contained within the unwrapped problem.
Returns the trace, the updated Builder and the updated capture count. -/
def getStack (env : Env) (b : Builder) (sc : Nat) (skip : Int) :
    String × Builder × Nat :=
  if b.stack ≠ "" then (b.stack, b, sc)
  else if b.problem.Stack ≠ "" then
    (b.problem.Stack, { b with stack := b.problem.Stack }, sc)
  else if b.problem.logInfo.Stack ≠ "" then
    (b.problem.logInfo.Stack, { b with stack := b.problem.logInfo.Stack }, sc)
  else
    let skip := if b.stackFramesSkipped > 0 then skip + b.stackFramesSkipped else skip
    let s := env.take sc (skip + 1)
    (s, { b with stack := s }, sc + 1)

/-- getUUID (builder.go:584): lazily generated uuid, cached on the Builder;
priority to a uuid contained within the unwrapped problem. -/
def getUUID (env : Env) (g : Generator) (b : Builder) (uc : Nat) :
    String × Builder × Nat :=
  if b.uuid ≠ "" then (b.uuid, b, uc)
  else if b.problem.UUID ≠ "" then
    (b.problem.UUID, { b with uuid := b.problem.UUID }, uc)
  else if b.problem.logInfo.UUID ≠ "" then
    (b.problem.logInfo.UUID, { b with uuid := b.problem.logInfo.UUID }, uc)
  else
    let u := g.uuid env uc
    (u, { b with uuid := u }, uc + 1)

/-- buildCode (builder.go:466). -/
def Builder.buildCode (b : Builder) : String :=
  firstNonZeroValue "" [b.code, b.problem.Code, b.defn.Code]

/-- buildDetail (builder.go:471); `none` propagates the translateOrElse
panic on a nil Translator. -/
def Builder.buildDetail (b : Builder) (g : GoProblem.Generator) : Option String :=
  match g.translateOrElse b.detailKey b.detail with
  | none => none
  | some v =>
    if v ≠ "" then some v
    else if b.problem.Detail ≠ "" then some b.problem.Detail
    else g.translateOrElse b.defn.DetailKey b.defn.Detail

/-- buildExtensions (builder.go:483); `maps.Clone` of an immutable
association list is the list itself (and clone of nil is nil). -/
def Builder.buildExtensions (b : Builder) : Option Extensions :=
  firstNonNilMap [b.extensions, b.problem.Extensions, b.defn.Extensions]

/-- buildInstance (builder.go:488). -/
def Builder.buildInstance (b : Builder) : String :=
  firstNonZeroValue "" [b.instanceURI, b.problem.Instance, b.defn.Instance]

/-- buildStack (builder.go:516): empty unless the resolved flag has
FlagField. -/
def buildStack (env : Env) (g : Generator) (b : Builder) (sc : Nat)
    (skipStackFrames : Int) : String × Builder × Nat :=
  if checkFlag (b.stackFlag.getD g.StackFlag) FlagField then
    getStack env b sc (skipStackFrames + 1)
  else ("", b, sc)

/-- buildStatus (builder.go:525): falls back to 500. -/
def Builder.buildStatus (b : Builder) : Int :=
  firstNonZeroValue 0 [b.status, b.problem.Status, b.defn.DType.Status, 500]

/-- buildTitle (builder.go:530): falls back to DefaultTitle. -/
def Builder.buildTitle (b : Builder) (g : GoProblem.Generator) : Option String :=
  match g.translateOrElse b.titleKey b.title with
  | none => none
  | some v =>
    if v ≠ "" then some v
    else if b.problem.Title ≠ "" then some b.problem.Title
    else
      match g.translateOrElse b.defn.DType.TitleKey b.defn.DType.Title with
      | none => none
      | some v2 => if v2 ≠ "" then some v2 else some DefaultTitle

/-- buildType (builder.go:546): falls back to DefaultTypeURI. -/
def Builder.buildType (b : Builder) (g : GoProblem.Generator) : String :=
  firstNonZeroValue ""
    [b.typeURI, b.problem.TypeUri, g.typeURI b.defn.DType, DefaultTypeURI]

/-- buildUUID (builder.go:553): empty unless the resolved flag has
FlagField. -/
def buildUUID (env : Env) (g : Generator) (b : Builder) (uc : Nat) :
    String × Builder × Nat :=
  if checkFlag (b.uuidFlag.getD g.UUIDFlag) FlagField then
    getUUID env g b uc
  else ("", b, uc)

/-- buildLogInfo (builder.go:499): level chain plus log-gated stack/uuid.
(The intermediate results are kept as tuples and read by projection.) -/
def buildLogInfo (env : Env) (g : Generator) (b : Builder) (sc uc : Nat)
    (skipStackFrames : Int) : LogInfo × Builder × Nat × Nat :=
  let level := firstNonZeroValue 0
    [b.logLevel, b.problem.logInfo.Level, g.logLevel b.defn.DType]
  let r1 :=
    if checkFlag (b.stackFlag.getD g.StackFlag) FlagLog then
      getStack env b sc (skipStackFrames + 1)
    else ("", b, sc)
  let r2 :=
    if checkFlag (r1.2.1.uuidFlag.getD g.UUIDFlag) FlagLog then
      getUUID env g r1.2.1 uc
    else ("", r1.2.1, uc)
  ({ Level := level, Stack := r1.1, UUID := r2.1 }, r2.2.1, r1.2.2, r2.2.2)

/-- The Generator resolution at the top of build (builder.go:445-449):
the Builder's own Generator, else the one carried by the context, else
DefaultGenerator. -/
def Builder.resolvedGen (b : Builder) : GoProblem.Generator :=
  match b.Generator with
  | some g => g
  | none => GetGenerator (b.ctx.getD {})

/-- build (builder.go:443): assembles the Problem, threading the builder's
lazily-filled caches and the collaborator call counters in Go's
left-to-right field-evaluation order. `none` is the nil-Translator panic.
(The intermediate results are kept as tuples and read by projection.) -/
def Builder.build (env : Env) (b : Builder) (sc uc : Nat)
    (skipStackFrames : Int) : Option (Problem × Builder × Nat × Nat) :=
  let skip := skipStackFrames + 1
  let g := b.resolvedGen
  let code := b.buildCode
  match b.buildDetail g with
  | none => none
  | some detail =>
    let exts := b.buildExtensions
    let inst := b.buildInstance
    let r1 := buildStack env g b sc skip
    let b1 := r1.2.1
    let status := b1.buildStatus
    match b1.buildTitle g with
    | none => none
    | some title =>
      let ty := b1.buildType g
      let r2 := buildUUID env g b1 uc
      let b2 := r2.2.1
      let r3 := buildLogInfo env g b2 r1.2.2 r2.2.2 skip
      some ({ Code := code
              Detail := detail
              Extensions := exts
              Instance := inst
              Stack := r1.1
              Status := status
              Title := title
              TypeUri := ty
              UUID := r2.1
              logInfo := r3.1
              err := b.err }, r3.2.1, r3.2.2.1, r3.2.2.2)

/-- Builder.Problem (builder.go:278) without the discarded post-state:
the resolved Problem, or `none` on the nil-Translator panic. -/
def Builder.resolveProblem (env : Env) (b : Builder) : Option Problem :=
  (b.build env 0 0 1).map (fun r => r.1)

/-- Builder.Reset (builder.go:283): clears everything except Generator and
ctx. -/
def Builder.Reset (b : Builder) : Builder :=
  { b with
    code := ""
    defn := {}
    detail := ""
    detailKey := none
    err := []
    extensions := none
    instanceURI := ""
    logLevel := 0
    problem := {}
    stack := ""
    stackFlag := none
    stackFramesSkipped := 0
    status := 0
    title := ""
    titleKey := none
    typeURI := ""
    uuid := ""
    uuidFlag := none }

/-- Builder.UUID (builder.go:407): sets the uuid visibility flags. -/
def Builder.UUID (b : Builder) (flags : List Flag) : Builder :=
  { b with uuidFlag := resolveFlag flags }

/-- Builder.Stack (builder.go:317): sets the stack visibility flags. -/
def Builder.Stack (b : Builder) (flags : List Flag) : Builder :=
  { b with stackFlag := resolveFlag flags }

/-! ## Error-chain unwrapping and matchers (part_001) -/

/-- `errors.As` with a `*Problem` target on a linear chain: the first
embedded Problem, rebuilt together with its own wrapped error. -/
def errorsAsProblem : GoErr → Option Problem
  | [] => none
  | .basic _ :: rest => errorsAsProblem rest
  | .prob pf :: rest => some { toProblemFields := pf, err := rest }

/-- As (part_001:64): nil-tolerant `errors.As` shorthand. -/
def As (err : GoErr) : Option Problem × Bool :=
  match err with
  | [] => (none, false)
  | e =>
    match errorsAsProblem e with
    | some p => (some p, true)
    | none => (none, false)

/-- Matcher (part_001:33): a predicate over a Problem. -/
abbrev Matcher := Problem → Bool

/-- Unwrapper (part_001:43). -/
abbrev Unwrapper := GoErr → Problem

/-- Match (part_001:333): true when the Problem matches all matchers; a nil
Problem fails whenever at least one matcher is supplied. -/
def Match (prob : Option Problem) (matchers : List Matcher) : Bool :=
  if matchers.length > 0 then
    match prob with
    | none => false
    | some q => matchers.all (fun m => m q)
  else true

/-- The Problem found by `errors.As` carries a strictly shorter chain. -/
theorem errorsAsProblem_length {err : GoErr} {p : Problem}
    (h : errorsAsProblem err = some p) : p.err.length < err.length := by
  induction err with
  | nil => simp [errorsAsProblem] at h
  | cons f rest ih =>
    cases f with
    | basic m =>
      simp only [errorsAsProblem] at h
      exact Nat.lt_trans (ih h) (Nat.lt_succ_self _)
    | prob pf =>
      simp only [errorsAsProblem] at h
      cases h
      exact Nat.lt_succ_self _

/-- AsMatch (part_001:117): find a Problem matching all matchers, retrying
from each found Problem's own wrapped cause. -/
def AsMatch (err : GoErr) (matchers : List Matcher) : Option Problem × Bool :=
  match err with
  | [] => (none, false)
  | e =>
    match h : errorsAsProblem e with
    | none => (none, false)
    | some p =>
      if Match (some p) matchers then (some p, true)
      else AsMatch p.Unwrap matchers
termination_by err.length
decreasing_by
  exact errorsAsProblem_length h

/-- The sequence of Problems AsMatch can visit: each found Problem followed
by the Problems in its own wrapped cause. -/
def problemChain (err : GoErr) : List Problem :=
  match h : errorsAsProblem err with
  | none => []
  | some p => p :: problemChain p.err
termination_by err.length
decreasing_by
  exact errorsAsProblem_length h

/-- unwrapAllFields (part_001:416): every field of the first wrapped
Problem, or a zero Problem. -/
def unwrapAllFields (err : GoErr) : Problem :=
  match As err with
  | (some p, true) => p
  | _ => {}

/-- unwrapPropagatedFields (part_001:427): only stack, uuid and log info of
the first wrapped Problem, or a zero Problem. -/
def unwrapPropagatedFields (err : GoErr) : Problem :=
  match As err with
  | (some p, true) => { Stack := p.Stack, UUID := p.UUID, logInfo := p.logInfo }
  | _ => {}

/-- Builder.Wrap (builder.go:422): records the wrapped error and seeds the
inherited Problem via the resolved Unwrapper. The Go variadic is a list;
only its first element is consulted. -/
def Builder.Wrap (b : Builder) (err : GoErr) (unwrapper : List Unwrapper) :
    Builder :=
  let u : Option Unwrapper :=
    match unwrapper with
    | u :: _ => some u
    | [] =>
      match b.Generator with
      | some g => g.Unwrapper
      | none => DefaultGenerator.Unwrapper
  let u := u.getD unwrapPropagatedFields
  { b with err := err, problem := u err }

/-- Operator (part_001:36): the comparison operator enum. -/
inductive Operator where
  | equals
  | notEquals
  | greaterThan
  | greaterThanOrEqual
  | lessThan
  | lessThanOrEqual
deriving Repr, DecidableEq

/-- operatorOrDefault (part_001:406): first given operator, else equals. -/
def operatorOrDefault (op : List Operator) : Operator :=
  match op with
  | o :: _ => o
  | [] => .equals

/-- operate (part_001:384): applies the operator to `cmp.Compare`'s result. -/
def operate [Ord α] (op : Operator) (probValue otherValue : α) : Bool :=
  let c := compare probValue otherValue
  match op with
  | .equals => c == .eq
  | .notEquals => c != .eq
  | .greaterThan => c == .gt
  | .greaterThanOrEqual => c == .gt || c == .eq
  | .lessThan => c == .lt
  | .lessThanOrEqual => c == .lt || c == .eq

/-- HasStatus (part_001:293): match a Problem on its status. -/
def HasStatus (status : Int) (operator : List Operator) : Matcher :=
  let op := operatorOrDefault operator
  fun p => operate op p.Status status

/-! ## Code codec (part_000)

Strings are treated at `List Char` granularity; the byte lengths that Go's
`len` computes coincide with character counts on the decimal digit strings
the codec manipulates, so lengths are modelled as character counts. -/

/-- NS: a Code namespace. -/
abbrev NS := String

/-- The kinds of `ErrCode` failure (error messages are dropped). -/
inductive CodeErr where
  | sepUnprintable
  | sepMissing
  | nsEmpty
  | nsHasSep
  | nsRejected
  | nsUnexpected
  | valueEmpty
  | valueTooLong
  | valueParse
deriving Repr, DecidableEq

/-- ParsedCode (part_000:84). -/
structure ParsedCode where
  Code : String := ""
  NS : NS := ""
  Value : Nat := 0
deriving Repr, DecidableEq

/-- Coder (part_000:58). -/
structure Coder where
  Generator : Option Generator := none
  NS : NS := ""

/-- DefaultCodeSeparator (part_000:95). -/
def DefaultCodeSeparator : Char := '-'

/-- `unicode.IsPrint` restricted to the ASCII range; separators outside
ASCII are conservatively treated as non-printable. -/
def goIsPrint (r : Int) : Bool := 0x20 ≤ r && r ≤ 0x7E

/-- codeSeparator (part_000:417): the configured rune when positive and
printable, the default when unset, an error otherwise. -/
def Generator.codeSeparator (g : Generator) : Except CodeErr Char :=
  if g.CodeSeparator ≤ 0 then .ok DefaultCodeSeparator
  else if goIsPrint g.CodeSeparator then .ok (Char.ofNat g.CodeSeparator.toNat)
  else .error .sepUnprintable

/-- validateCodeNS (part_000:428). -/
def Generator.validateCodeNS (g : Generator) (ns : NS) (sep : Char) :
    Option CodeErr :=
  if ns = "" then some .nsEmpty
  else if ns.data.contains sep then some .nsHasSep
  else
    match g.CodeNSValidator with
    | some v => if v ns then none else some .nsRejected
    | none => none

/-- validateCodeValue (part_000:444): non-empty, and no longer than
CodeValueLen when that is positive. -/
def Generator.validateCodeValue (g : Generator) (value : String) :
    Option CodeErr :=
  if value = "" then some .valueEmpty
  else if 0 < g.CodeValueLen ∧ g.CodeValueLen < (value.length : Int) then
    some .valueTooLong
  else none

/-- A decimal digit character. -/
def digitChar (d : Nat) : Char := Char.ofNat (48 + d)

/-- The digit-emitting loop of `strconv.FormatUint` base 10; `fuel` bounds
the number of digits and `formatUint` always supplies enough. -/
def toDecimalAux : Nat → Nat → List Char → List Char
  | 0, _, acc => acc
  | fuel + 1, n, acc =>
    let acc' := digitChar (n % 10) :: acc
    if n < 10 then acc' else toDecimalAux fuel (n / 10) acc'

/-- `strconv.FormatUint(v, 10)`. -/
def formatUint (n : Nat) : String := ⟨toDecimalAux (n + 1) n []⟩

/-- The digit-consuming loop of `strconv.ParseUint` base 10. -/
def parseDigitsAux : Nat → List Char → Option Nat
  | acc, [] => some acc
  | acc, c :: rest =>
    if c.isDigit then parseDigitsAux (acc * 10 + (c.toNat - 48)) rest
    else none

/-- `strconv.ParseUint(s, 10, 0)` on a 64-bit platform: digits only, and the
value must fit in 64 bits. (Go rejects the overflow at the step where the
accumulator first exceeds the bound; since digits only grow the value, that
is equivalent to this final check.) -/
def goParseUint (s : String) : Option Nat :=
  match s.data with
  | [] => none
  | l =>
    match parseDigitsAux 0 l with
    | none => none
    | some n => if n < 2 ^ 64 then some n else none

/-- The right-padding loop of Coder.Build (part_000:124): append `'0'`
characters until the suffix reaches CodeValueLen. -/
def padSuffix (suffix : List Char) (vl : Int) : List Char :=
  if (suffix.length : Int) < vl then
    suffix ++ List.replicate (vl - suffix.length).toNat '0'
  else suffix

/-- Coder.Build (part_000:109): validate the value string and the NS, pad,
and concatenate `NS ++ sep ++ paddedValue`. Returns the Code with `none`,
or `""` with the error, exactly as the Go pair. -/
def Coder.Build (c : Coder) (value : Nat) : String × Option CodeErr :=
  let g := c.Generator.getD DefaultGenerator
  match g.codeSeparator with
  | .error e => ("", some e)
  | .ok sep =>
    let suffix := formatUint value
    match g.validateCodeValue suffix with
    | some e => ("", some e)
    | none =>
      let suffix :=
        if 0 < g.CodeValueLen then padSuffix suffix.data g.CodeValueLen
        else suffix.data
      match g.validateCodeNS c.NS sep with
      | some e => ("", some e)
      | none => (⟨c.NS.data ++ sep :: suffix⟩, none)

/-- The rune loop of Coder.Parse (part_000:195): characters before the first
separator form the NS; everything after it (separators included) forms the
value string. `none` means the separator never occurred. -/
def codeSplit (sep : Char) : List Char → List Char × Option (List Char)
  | [] => ([], none)
  | r :: rest =>
    if r = sep then ([], some rest)
    else
      let (ns, v) := codeSplit sep rest
      (r :: ns, v)

/-- Coder.Parse (part_000:178): split on the first separator, validate the
NS (and its equality with Coder.NS when that is set), validate and parse the
value. The ParsedCode carries whatever was recovered even on error. -/
def Coder.Parse (c : Coder) (code : String) : ParsedCode × Option CodeErr :=
  let g := c.Generator.getD DefaultGenerator
  let pc : ParsedCode := { Code := code }
  match g.codeSeparator with
  | .error e => (pc, some e)
  | .ok sep =>
    match codeSplit sep code.data with
    | (_, none) => (pc, some .sepMissing)
    | (nsl, some vl) =>
      let pc := { pc with NS := (⟨nsl⟩ : String) }
      match g.validateCodeNS pc.NS sep with
      | some e => (pc, some e)
      | none =>
        if c.NS ≠ "" ∧ c.NS ≠ pc.NS then (pc, some .nsUnexpected)
        else
          let valStr : String := ⟨vl⟩
          match g.validateCodeValue valStr with
          | some e => (pc, some e)
          | none =>
            match goParseUint valStr with
            | none => (pc, some .valueParse)
            | some v => ({ pc with Value := v }, none)

/-- Generator.Coder (part_000:402), with an optional NS. -/
def Generator.Coder (g : Generator) (ns : List NS := []) : Coder :=
  { Generator := some g, NS := ns.headD "" }

/-- HasCodeNSUsing (part_001:210). Faithful to the source: the conjunction
tests `err != nil`, i.e. the matcher can only succeed when parsing FAILED,
and then compares the partially-recovered NS. -/
def HasCodeNSUsing (gen : Generator) (ns : NS) (operator : List Operator) :
    Matcher :=
  let c := gen.Coder
  let op := operatorOrDefault operator
  fun p =>
    let (parsed, err) := c.Parse p.Code
    err.isSome && operate op parsed.NS ns

/-- HasCodeValueUsing (part_001:231). Faithful to the source: the
conjunction tests `err != nil`, like HasCodeNSUsing. -/
def HasCodeValueUsing (gen : Generator) (value : Nat)
    (operator : List Operator) : Matcher :=
  let c := gen.Coder
  let op := operatorOrDefault operator
  fun p =>
    let (parsed, err) := c.Parse p.Code
    err.isSome && operate op parsed.Value value

/-! ## Concrete collaborators used by witnesses -/

/-- A concrete collaborator oracle whose outputs record the call index, so
witness computations show exactly which call produced which string. -/
def env0 : Env :=
  { take := fun i _ => "stack" ++ toString i
    genUUID := fun i => "uuid" ++ toString i }

/-- NoopTranslator's underlying function (i18n.go:33). -/
def noopTranslate : Option String → String := fun _ => ""

/-! ## Resolution infrastructure lemmas -/

theorem getStack_builder (env : Env) (b : Builder) (sc : Nat) (skip : Int) :
    (getStack env b sc skip).2.1 = { b with stack := (getStack env b sc skip).1 } := by
  unfold getStack
  split
  · rfl
  · split
    · rfl
    · split <;> rfl

theorem getStack_cached (env : Env) (b : Builder) (sc : Nat) (skip : Int)
    (h : b.stack ≠ "") : getStack env b sc skip = (b.stack, b, sc) := by
  unfold getStack
  simp [h]

theorem getUUID_builder (env : Env) (g : Generator) (b : Builder) (uc : Nat) :
    (getUUID env g b uc).2.1 = { b with uuid := (getUUID env g b uc).1 } := by
  unfold getUUID
  split
  · rfl
  · split
    · rfl
    · split <;> rfl

theorem getUUID_cached (env : Env) (g : Generator) (b : Builder) (uc : Nat)
    (h : b.uuid ≠ "") : getUUID env g b uc = (b.uuid, b, uc) := by
  unfold getUUID
  simp [h]

/-- When a Translator is present, translateOrElse returns the fallback. -/
theorem translateOrElse_some {g : Generator} (t : Option String → String)
    (ht : g.Translator = some t) (key : Option String) (d : String) :
    g.translateOrElse key d = some d := by
  unfold Generator.translateOrElse
  rw [ht]

/-- With a Translator present, buildDetail is the literal chain
explicit → inherited → Definition (translation keys are never consulted). -/
theorem buildDetail_eq {b : Builder} {g : Generator} (t : Option String → String)
    (ht : g.Translator = some t) :
    b.buildDetail g = some
      (if b.detail ≠ "" then b.detail
       else if b.problem.Detail ≠ "" then b.problem.Detail
       else b.defn.Detail) := by
  unfold Builder.buildDetail
  rw [translateOrElse_some t ht, translateOrElse_some t ht]
  by_cases h1 : b.detail = "" <;> by_cases h2 : b.problem.Detail = "" <;>
    simp [h1, h2]

/-- With a Translator present, buildTitle is the literal chain
explicit → inherited → Type → DefaultTitle. -/
theorem buildTitle_eq {b : Builder} {g : Generator} (t : Option String → String)
    (ht : g.Translator = some t) :
    b.buildTitle g = some
      (if b.title ≠ "" then b.title
       else if b.problem.Title ≠ "" then b.problem.Title
       else if b.defn.DType.Title ≠ "" then b.defn.DType.Title
       else DefaultTitle) := by
  unfold Builder.buildTitle
  rw [translateOrElse_some t ht, translateOrElse_some t ht]
  by_cases h1 : b.title = "" <;> by_cases h2 : b.problem.Title = "" <;>
    by_cases h3 : b.defn.DType.Title = "" <;> simp [h1, h2, h3]

/-- A successful build implies the resolved Generator has a Translator. -/
theorem build_translator {env : Env} {b : Builder} {sc uc : Nat} {skip : Int}
    {r : Problem × Builder × Nat × Nat} (h : b.build env sc uc skip = some r) :
    ∃ t, b.resolvedGen.Translator = some t := by
  cases ht : b.resolvedGen.Translator with
  | some t => exact ⟨t, rfl⟩
  | none =>
    exfalso
    simp only [Builder.build, Builder.buildDetail, Generator.translateOrElse,
      ht] at h
    exact Option.noConfusion h

/-- buildStack only ever touches the builder's stack cache. -/
theorem buildStack_builder (env : Env) (g : Generator) (b : Builder)
    (sc : Nat) (skip : Int) :
    (buildStack env g b sc skip).2.1 =
      { b with stack := (buildStack env g b sc skip).2.1.stack } := by
  unfold buildStack
  split
  · rw [getStack_builder]
  · rfl

/-- buildUUID only ever touches the builder's uuid cache. -/
theorem buildUUID_builder (env : Env) (g : Generator) (b : Builder)
    (uc : Nat) :
    (buildUUID env g b uc).2.1 =
      { b with uuid := (buildUUID env g b uc).2.1.uuid } := by
  unfold buildUUID
  split
  · rw [getUUID_builder]
  · rfl

/-- The log level produced by buildLogInfo is its three-tier chain. -/
theorem buildLogInfo_level (env : Env) (g : Generator) (b : Builder)
    (sc uc : Nat) (skip : Int) :
    (buildLogInfo env g b sc uc skip).1.Level =
      firstNonZeroValue 0
        [b.logLevel, b.problem.logInfo.Level, g.logLevel b.defn.DType] := rfl

/-- Field characterization of a successful build: every non-lazy field of
the produced Problem follows its precedence chain over the original
builder's fields (the caches filled along the way feed no other chain).
Detail and Title are the literal chains because a successful build implies
a Translator is present, and translateOrElse then returns the literal. -/
theorem build_fields {env : Env} {b : Builder} {sc uc : Nat} {skip : Int}
    {p : Problem} {b' : Builder} {sc' uc' : Nat}
    (h : b.build env sc uc skip = some (p, b', sc', uc')) :
    p.Code = b.buildCode ∧
    p.Detail = (if b.detail ≠ "" then b.detail
      else if b.problem.Detail ≠ "" then b.problem.Detail else b.defn.Detail) ∧
    p.Extensions = b.buildExtensions ∧
    p.Instance = b.buildInstance ∧
    p.Status = b.buildStatus ∧
    p.Title = (if b.title ≠ "" then b.title
      else if b.problem.Title ≠ "" then b.problem.Title
      else if b.defn.DType.Title ≠ "" then b.defn.DType.Title
      else DefaultTitle) ∧
    p.TypeUri = b.buildType b.resolvedGen ∧
    p.logInfo.Level = firstNonZeroValue 0
      [b.logLevel, b.problem.logInfo.Level,
       b.resolvedGen.logLevel b.defn.DType] ∧
    p.err = b.err := by
  obtain ⟨t, ht⟩ := build_translator h
  simp only [Builder.build] at h
  rw [buildDetail_eq t ht] at h
  generalize hs1 : buildStack env b.resolvedGen b sc (skip + 1) = r1 at h
  obtain ⟨s1, b1, sc1⟩ := r1
  have hb1 : b1 = { b with stack := b1.stack } := by
    have := buildStack_builder env b.resolvedGen b sc (skip + 1)
    rw [hs1] at this
    exact this
  rw [hb1] at h
  rw [buildTitle_eq t ht] at h
  generalize hu1 : buildUUID env b.resolvedGen { b with stack := b1.stack } uc = r2 at h
  obtain ⟨u1, b2, uc1⟩ := r2
  have hb2 : b2 = { b with stack := b1.stack, uuid := b2.uuid } := by
    have := buildUUID_builder env b.resolvedGen { b with stack := b1.stack } uc
    rw [hu1] at this
    exact this
  rw [hb2] at h
  simp only [Option.some.injEq, Prod.mk.injEq] at h
  obtain ⟨hp, -⟩ := h
  subst hp
  refine ⟨rfl, ?_, rfl, rfl, rfl, ?_, rfl, rfl, rfl⟩
  · by_cases h1 : b.detail = "" <;> by_cases h2 : b.problem.Detail = "" <;>
      simp [h1, h2]
  · by_cases h1 : b.title = "" <;> by_cases h2 : b.problem.Title = "" <;>
      by_cases h3 : b.defn.DType.Title = "" <;> simp [h1, h2, h3]

/-- Head case of firstNonZeroValue: a non-zero head wins. -/
theorem firstNonZeroValue_cons_ne [DecidableEq α] (zero v : α)
    (rest : List α) (h : v ≠ zero) :
    firstNonZeroValue zero (v :: rest) = v := by
  simp [firstNonZeroValue, h]

/-! ## Unwrap / matcher infrastructure lemmas -/

/-- With at least one matcher, Match on a present Problem is the
conjunction of the matchers. -/
theorem Match_some (p : Problem) {ms : List Matcher} (h : ms ≠ []) :
    Match (some p) ms = ms.all (fun m => m p) := by
  unfold Match
  have hl : ms.length > 0 := List.length_pos.mpr h
  simp [hl]

theorem AsMatch_nil (ms : List Matcher) : AsMatch [] ms = (none, false) := by
  rw [AsMatch]

/-- One unfolding of AsMatch on a non-nil error. -/
theorem AsMatch_cons (f : Frame) (rest : GoErr) (ms : List Matcher) :
    AsMatch (f :: rest) ms =
      match errorsAsProblem (f :: rest) with
      | none => (none, false)
      | some p =>
        if Match (some p) ms then (some p, true) else AsMatch p.err ms := by
  rw [AsMatch]
  · split <;> rename_i heq <;> simp only [heq, Problem.Unwrap]
  · simp

/-- One unfolding of problemChain. -/
theorem problemChain_eq (err : GoErr) :
    problemChain err =
      match errorsAsProblem err with
      | none => []
      | some p => p :: problemChain p.err := by
  rw [problemChain]
  split <;> rename_i heq <;> rw [heq]

/-- AsMatch returns the first Problem along the recursive-unwrap chain that
satisfies the conjunction of the matchers (bounded induction on the chain
length). -/
theorem asMatch_find_aux :
    ∀ n (err : GoErr), err.length ≤ n → ∀ ms : List Matcher, ms ≠ [] →
      AsMatch err ms =
        match (problemChain err).find? (fun p => ms.all (fun m => m p)) with
        | some p => (some p, true)
        | none => (none, false) := by
  intro n
  induction n with
  | zero =>
    intro err hlen ms hms
    have herr : err = [] := List.eq_nil_of_length_eq_zero (Nat.le_zero.mp hlen)
    subst herr
    rw [AsMatch_nil, problemChain_eq]
    simp [errorsAsProblem]
  | succ n ih =>
    intro err hlen ms hms
    cases err with
    | nil =>
      rw [AsMatch_nil, problemChain_eq]
      simp [errorsAsProblem]
    | cons f rest =>
      rw [AsMatch_cons, problemChain_eq]
      cases he : errorsAsProblem (f :: rest) with
      | none => simp
      | some p =>
        simp only []
        by_cases hm : Match (some p) ms
        · rw [if_pos hm]
          have hall : (ms.all (fun m => m p)) = true := by
            rw [← Match_some p hms]
            exact hm
          simp [List.find?, hall]
        · rw [if_neg hm]
          have hlt : p.err.length < (f :: rest).length :=
            errorsAsProblem_length he
          have hle : p.err.length ≤ n := by
            simp [List.length_cons] at hlt hlen
            omega
          rw [ih p.err hle ms hms]
          have hall : (ms.all (fun m => m p)) = false := by
            rw [← Match_some p hms]
            simpa using hm
          simp [List.find?, hall]

/-! ## Claim C3: codec lemmas -/

theorem digitChar_isDigit {d : Nat} (h : d < 10) :
    (digitChar d).isDigit = true := by
  interval_cases d <;> decide

theorem digitChar_toNat {d : Nat} (h : d < 10) :
    (digitChar d).toNat = 48 + d := by
  interval_cases d <;> decide

theorem parseDigitsAux_digitChar {d : Nat} (h : d < 10) (a : Nat)
    (l : List Char) :
    parseDigitsAux a (digitChar d :: l) = parseDigitsAux (a * 10 + d) l := by
  have h1 : parseDigitsAux a (digitChar d :: l)
      = if (digitChar d).isDigit then
          parseDigitsAux (a * 10 + ((digitChar d).toNat - 48)) l
        else none := rfl
  rw [h1, digitChar_isDigit h, digitChar_toNat h]
  simp

theorem parseDigitsAux_append (l1 l2 : List Char) (a : Nat) :
    parseDigitsAux a (l1 ++ l2) =
      match parseDigitsAux a l1 with
      | none => none
      | some m => parseDigitsAux m l2 := by
  induction l1 generalizing a with
  | nil => simp [parseDigitsAux]
  | cons c rest ih =>
    by_cases hc : c.isDigit
    · simp [parseDigitsAux, hc, ih]
    · simp [parseDigitsAux, hc]

theorem parse_toDecimalAux :
    ∀ fuel n acc, n < fuel →
      parseDigitsAux 0 (toDecimalAux fuel n acc) = parseDigitsAux n acc := by
  intro fuel
  induction fuel with
  | zero => intro n acc h; omega
  | succ fuel ih =>
    intro n acc h
    unfold toDecimalAux
    by_cases hn : n < 10
    · simp only [hn, if_true]
      rw [Nat.mod_eq_of_lt hn, parseDigitsAux_digitChar hn]
      simp
    · simp only [hn, if_false]
      have hdiv : n / 10 < fuel := by
        have h1 : n / 10 < n := Nat.div_lt_self (by omega) (by omega)
        omega
      rw [ih (n / 10) (digitChar (n % 10) :: acc) hdiv]
      rw [parseDigitsAux_digitChar (Nat.mod_lt n (by omega))]
      congr 1
      omega



theorem parseDigitsAux_replicate_zero (k a : Nat) :
    parseDigitsAux a (List.replicate k '0') = some (a * 10 ^ k) := by
  induction k generalizing a with
  | zero => simp [parseDigitsAux]
  | succ k ih =>
    rw [List.replicate_succ]
    have h0 : parseDigitsAux a ('0' :: List.replicate k '0')
        = parseDigitsAux (a * 10 + 0) (List.replicate k '0') := by
      have := parseDigitsAux_digitChar (d := 0) (by omega) a (List.replicate k '0')
      simpa [digitChar] using this
    rw [h0, ih]
    ring_nf

theorem parseDigits_format_pad {v fuel : Nat} (hv : v < fuel) (k : Nat) :
    parseDigitsAux 0 (toDecimalAux fuel v [] ++ List.replicate k '0')
      = some (v * 10 ^ k) := by
  rw [parseDigitsAux_append]
  rw [parse_toDecimalAux fuel v [] hv]
  have : parseDigitsAux v ([] : List Char) = some v := rfl
  rw [this]
  exact parseDigitsAux_replicate_zero k v

theorem toDecimalAux_acc :
    ∀ fuel n acc, toDecimalAux fuel n acc = toDecimalAux fuel n [] ++ acc := by
  intro fuel
  induction fuel with
  | zero => intro n acc; simp [toDecimalAux]
  | succ fuel ih =>
    intro n acc
    unfold toDecimalAux
    by_cases hn : n < 10
    · simp [hn]
    · simp only [hn, if_false]
      rw [ih (n / 10) (digitChar (n % 10) :: acc),
          ih (n / 10) [digitChar (n % 10)]]
      simp

theorem toDecimalAux_ne_nil (fuel n : Nat) (acc : List Char) :
    toDecimalAux (fuel + 1) n acc ≠ [] := by
  unfold toDecimalAux
  by_cases hn : n < 10
  · simp [hn]
  · simp only [hn, if_false]
    rw [toDecimalAux_acc]
    simp

theorem formatUint_ne_nil (v : Nat) : (formatUint v).data ≠ [] := by
  unfold formatUint
  exact toDecimalAux_ne_nil v v []

theorem codeSplit_append (sep : Char) (ns rest : List Char)
    (h : sep ∉ ns) :
    codeSplit sep (ns ++ sep :: rest) = (ns, some rest) := by
  induction ns with
  | nil => simp [codeSplit]
  | cons c tail ih =>
    have hc : ¬(c = sep) := by
      intro hcs
      exact h (by simp [hcs])
    have htail : sep ∉ tail := fun hm => h (by simp [hm])
    simp [codeSplit, hc, ih htail]



/-- C3 (amended): parsing the code produced by a successful build with the
same Coder succeeds and returns the original namespace exactly; the parsed
numeric value is `v * 10 ^ pad`, where `pad` is the number of `'0'`
characters the fixed digit-count configuration appended on the right — so
it equals the original value exactly when no padding applied — provided
the padded numeral still fits in 64 bits (otherwise ParseUint reports a
range error). -/
theorem c3_roundtrip (g : GoProblem.Generator) (ns : NS) (v : Nat)
    (code : String)
    (hbuild : Coder.Build { Generator := some g, NS := ns } v = (code, none))
    (pad : Nat)
    (hpad : pad = if 0 < g.CodeValueLen ∧
        ((formatUint v).data.length : Int) < g.CodeValueLen
      then (g.CodeValueLen - (formatUint v).data.length).toNat else 0)
    (hfit : v * 10 ^ pad < 2 ^ 64) :
    Coder.Parse { Generator := some g, NS := ns } code
      = ({ Code := code, NS := ns, Value := v * 10 ^ pad }, none) ∧
    (pad = 0 → v * 10 ^ pad = v) := by
  refine ⟨?_, fun h => by simp [h]⟩
  simp only [Coder.Build, Option.getD_some] at hbuild
  cases hsep : g.codeSeparator with
  | error e =>
    rw [hsep] at hbuild
    simp at hbuild
  | ok sep =>
    rw [hsep] at hbuild
    simp only [] at hbuild
    cases hvv : g.validateCodeValue (formatUint v) with
    | some e =>
      rw [hvv] at hbuild
      simp at hbuild
    | none =>
      rw [hvv] at hbuild
      simp only [] at hbuild
      cases hvn : g.validateCodeNS ns sep with
      | some e =>
        rw [hvn] at hbuild
        simp at hbuild
      | none =>
        rw [hvn] at hbuild
        simp only [Prod.mk.injEq] at hbuild
        obtain ⟨hcode, -⟩ := hbuild
        subst hcode
        -- facts from the NS validation
        have hns : ns ≠ "" := by
          intro h
          simp [Generator.validateCodeNS, h] at hvn
        have hmem : sep ∉ ns.data := by
          intro hm
          simp [Generator.validateCodeNS, hns, hm] at hvn
        -- the padded value string is the digits of v followed by pad zeros
        have hfne : formatUint v ≠ "" := by
          intro h
          have h2 := formatUint_ne_nil v
          rw [h] at h2
          exact h2 rfl
        have hlenv : ¬(0 < g.CodeValueLen ∧
            g.CodeValueLen < ((formatUint v).length : Int)) := by
          intro hcon
          simp [Generator.validateCodeValue, hfne, hcon] at hvv
        have hpadded : (if 0 < g.CodeValueLen then
              padSuffix (formatUint v).data g.CodeValueLen
            else (formatUint v).data)
            = (formatUint v).data ++ List.replicate pad '0' := by
          by_cases h1 : 0 < g.CodeValueLen
          · simp only [h1, if_true]
            unfold padSuffix
            by_cases h2 : ((formatUint v).data.length : Int) < g.CodeValueLen
            · rw [if_pos h2, hpad, if_pos ⟨h1, h2⟩]
            · rw [if_neg h2, hpad, if_neg (by tauto)]
              simp
          · rw [if_neg h1, hpad, if_neg (by tauto)]
            simp
        rw [hpadded]
        have hmklen : ((⟨(formatUint v).data ++ List.replicate pad '0'⟩ : String)).length
            = (formatUint v).data.length + pad := by
          show ((formatUint v).data ++ List.replicate pad '0').length
            = (formatUint v).data.length + pad
          simp
        have hmkne : (⟨(formatUint v).data ++ List.replicate pad '0'⟩ : String) ≠ "" := by
          intro h
          have h2 : (formatUint v).data ++ List.replicate pad '0' = ([] : List Char) :=
            congrArg String.data h
          simp [List.append_eq_nil] at h2
          exact formatUint_ne_nil v h2.1
        have hval2 : g.validateCodeValue ⟨(formatUint v).data ++ List.replicate pad '0'⟩ = none := by
          unfold Generator.validateCodeValue
          rw [if_neg hmkne, if_neg]
          rintro ⟨h1, h2⟩
          rw [hmklen] at h2
          by_cases hc : 0 < g.CodeValueLen ∧ ((formatUint v).data.length : Int) < g.CodeValueLen
          · rw [if_pos hc] at hpad
            omega
          · rw [if_neg hc] at hpad
            have hl2 := hlenv
            rw [show ((formatUint v).length : Int) = ((formatUint v).data.length : Int) from rfl] at hl2
            omega
        have hgp : goParseUint ⟨(formatUint v).data ++ List.replicate pad '0'⟩
            = some (v * 10 ^ pad) := by
          unfold goParseUint
          have hne2 : (formatUint v).data ++ List.replicate pad '0' ≠ ([] : List Char) := by
            intro h
            simp [List.append_eq_nil] at h
            exact formatUint_ne_nil v h.1
          obtain ⟨c, tail, hct⟩ := List.exists_cons_of_ne_nil hne2
          rw [show ((⟨(formatUint v).data ++ List.replicate pad '0'⟩ : String)).data
              = (formatUint v).data ++ List.replicate pad '0' from rfl]
          rw [hct]
          simp only []
          rw [← hct]
          rw [show (formatUint v).data = toDecimalAux (v + 1) v [] from rfl]
          rw [parseDigits_format_pad (Nat.lt_succ_self v) pad]
          dsimp only
          rw [if_pos hfit]
        simp only [Coder.Parse, Option.getD_some]
        rw [hsep]
        simp only []
        rw [show codeSplit sep (({ data := ns.data ++ sep :: ((formatUint v).data ++ List.replicate pad '0') } : String)).data
            = codeSplit sep (ns.data ++ sep :: ((formatUint v).data ++ List.replicate pad '0')) from rfl]
        rw [codeSplit_append sep ns.data _ hmem]
        dsimp only
        rw [show ((⟨ns.data⟩ : String)) = ns from rfl]
        rw [hvn]
        dsimp only
        rw [if_neg (by simp)]
        rw [hval2]
        dsimp only
        rw [hgp]



def c3_gen : Generator := { CodeValueLen := 8 }
def c3_coder : Coder := { Generator := some c3_gen, NS := "USER" }

/-- C3 counterexample: the claim says the value parsed back from a padded
code still equals the original value; with digit-length 8, build of 404
yields "USER-40400000" (the spec's own example), which parses back to
40400000, not 404. -/
theorem c3_counterexample :
    Coder.Build c3_coder 404 = ("USER-40400000", none) ∧
    (Coder.Parse c3_coder "USER-40400000").2 = none ∧
    (Coder.Parse c3_coder "USER-40400000").1.Value = 40400000 ∧
    (40400000 : Nat) ≠ 404 := by
  exact ⟨rfl, rfl, rfl, by decide⟩

theorem c3_witness :
    Coder.Parse { Generator := some c3_gen, NS := "USER" } "USER-40400000"
      = ({ Code := "USER-40400000", NS := "USER", Value := 404 * 10 ^ 5 }, none) ∧
    Coder.Parse { Generator := some DefaultGenerator, NS := "AUTH" } "AUTH-77"
      = ({ Code := "AUTH-77", NS := "AUTH", Value := 77 * 10 ^ 0 }, none) := by
  constructor
  · exact (c3_roundtrip c3_gen "USER" 404 _ rfl 5 (by decide) (by decide)).1
  · exact (c3_roundtrip DefaultGenerator "AUTH" 77 _ rfl 0 (by decide) (by decide)).1

/-! ## Claim C5 -/

/-- When the builder's uuid flag is exactly FlagField, buildLogInfo neither
generates a uuid (the call count is unchanged) nor exposes one in the log
attribute. -/
theorem buildLogInfo_uuid_off (env : Env) (g : Generator) (b : Builder)
    (sc uc : Nat) (skip : Int) (hf : b.uuidFlag = some FlagField) :
    (buildLogInfo env g b sc uc skip).2.2.2 = uc ∧
    (buildLogInfo env g b sc uc skip).1.UUID = "" := by
  unfold buildLogInfo
  rcases hgs : getStack env b sc (skip + 1) with ⟨s, bs, scs⟩
  have hbs : bs = { b with stack := s } := by
    have h2 := getStack_builder env b sc (skip + 1)
    rw [hgs] at h2
    exact h2
  subst hbs
  have hc : checkFlag FlagField FlagLog = false := by decide
  by_cases hsf : checkFlag (b.stackFlag.getD g.StackFlag) FlagLog
  · simp only [hsf, hgs, hf]
    simp [hc]
  · simp [hsf, hf, hc]

/-- Core of C5: for any builder whose uuid flag requests field visibility
only, whose uuid cache is empty, and whose inherited problem carries no
public uuid but a non-empty log-only uuid `u`, building succeeds with
`Problem.UUID = u` and the uuid-generation call count unchanged — the
generator's uuid function is never invoked. -/
theorem c5_core {env : Env} {b : Builder} {u : String} (sc uc : Nat) (sk : Int)
    (hflag : b.uuidFlag = some FlagField)
    (hcache : b.uuid = "")
    (hpub : b.problem.UUID = "")
    (hlog : b.problem.logInfo.UUID = u) (hu : u ≠ "")
    (ht : ∃ t, b.resolvedGen.Translator = some t) :
    ∃ p b' sc', b.build env sc uc sk = some (p, b', sc', uc) ∧ p.UUID = u := by
  obtain ⟨t, ht⟩ := ht
  simp only [Builder.build]
  rw [buildDetail_eq t ht]
  generalize hs1 : buildStack env b.resolvedGen b sc (sk + 1) = r1
  obtain ⟨s1, b1, sc1⟩ := r1
  dsimp only
  have hb1 : b1 = { b with stack := b1.stack } := by
    have h2 := buildStack_builder env b.resolvedGen b sc (sk + 1)
    rw [hs1] at h2
    exact h2
  rw [hb1, buildTitle_eq t ht]
  dsimp only
  have hbu : buildUUID env b.resolvedGen { b with stack := b1.stack } uc =
      (u, { b with stack := b1.stack, uuid := u }, uc) := by
    unfold buildUUID getUUID
    have hcu : checkFlag FlagField FlagField = true := by decide
    simp [hflag, hcache, hpub, hlog, hu, hcu]
  rw [hbu]
  dsimp only
  obtain ⟨huc, -⟩ := buildLogInfo_uuid_off env b.resolvedGen
      { b with stack := b1.stack, uuid := u } sc1 uc (sk + 1)
      (by simpa using hflag)
  rw [huc]
  exact ⟨_, _, _, rfl, rfl⟩

/-- C5: a Builder that wraps (via Wrap with the default propagated-field
Unwrapper) an error whose embedded Problem has an empty public UUID but a
non-empty log-only identifier, and whose uuid flags request
field-visibility only, resolves to a Problem whose UUID equals that
inherited identifier; the generator's uuid-generation function is not
invoked (the uuid call count stays 0). -/
theorem c5_inherited_uuid_priority (env : Env) (g : GoProblem.Generator)
    (t : Option String → String) (inner : ProblemFields) (rest : GoErr)
    (b0 : Builder)
    (hb0g : b0.Generator = some g) (hb0u : b0.uuid = "")
    (hg : g.Translator = some t) (hgu : g.Unwrapper = none)
    (hpub : inner.UUID = "") (hlog : inner.logInfo.UUID ≠ "") :
    ∃ p b' sc',
      ((b0.UUID [FlagField]).Wrap (.prob inner :: rest) []).build env 0 0 1
        = some (p, b', sc', 0) ∧
      p.UUID = inner.logInfo.UUID := by
  refine c5_core 0 0 1 ?_ ?_ ?_ ?_ hlog ?_
  · simp [Builder.Wrap, Builder.UUID, resolveFlag, resolveFlagLoop,
      FlagField, FlagDisable]
  · simp [Builder.Wrap, Builder.UUID, hb0u]
  · simp [Builder.Wrap, Builder.UUID, hb0g, hgu, unwrapPropagatedFields, As,
      errorsAsProblem, hpub]
  · simp [Builder.Wrap, Builder.UUID, hb0g, hgu, unwrapPropagatedFields, As,
      errorsAsProblem]
  · exact ⟨t, by simp [Builder.Wrap, Builder.UUID, Builder.resolvedGen, hb0g, hg]⟩

def c5w_g : Generator := { Translator := some noopTranslate }

def c5w_inner : ProblemFields := { logInfo := { UUID := "inherited-id" } }

def c5w_b0 : Builder := { Generator := some c5w_g }

theorem c5_inherited_uuid_priority_witness :
    ∃ p b' sc',
      ((c5w_b0.UUID [FlagField]).Wrap [.prob c5w_inner] []).build env0 0 0 1
        = some (p, b', sc', 0) ∧
      p.UUID = "inherited-id" :=
  c5_inherited_uuid_priority env0 c5w_g noopTranslate c5w_inner [] c5w_b0
    rfl rfl rfl rfl rfl (by decide)

/-! ## Claim C6 -/

/-- C6: AsMatch evaluates the supplied predicates as a conjunction on each
Problem found in the chain, returns the Problem (found = true) when all
pass, and otherwise continues from that Problem's own wrapped cause —
i.e. it returns exactly the first element of the recursive-unwrap chain
`problemChain` satisfying the conjunction, and (none, false) when no such
Problem remains. -/
theorem c6_asmatch_recursive_retry (err : GoErr) (ms : List Matcher)
    (h : ms ≠ []) :
    AsMatch err ms =
      match (problemChain err).find? (fun p => ms.all (fun m => m p)) with
      | some p => (some p, true)
      | none => (none, false) :=
  asMatch_find_aux err.length err le_rfl ms h

def c6_pf_inner : ProblemFields := { Status := 404 }
def c6_pf_mid : ProblemFields := { Status := 501 }
def c6_pf_outer : ProblemFields := { Status := 500 }
def c6_chain : GoErr := [.prob c6_pf_outer, .prob c6_pf_mid, .prob c6_pf_inner]
def c6_inner_problem : Problem := { toProblemFields := c6_pf_inner }

theorem c6_asmatch_recursive_retry_witness :
    ([HasStatus 404 []] : List Matcher) ≠ [] ∧
    AsMatch c6_chain [HasStatus 404 []] = (some c6_inner_problem, true) := by
  refine ⟨by simp, ?_⟩
  rw [c6_asmatch_recursive_retry _ _ (by simp)]
  have hchain : problemChain c6_chain =
      [{ toProblemFields := c6_pf_outer, err := [.prob c6_pf_mid, .prob c6_pf_inner] },
       { toProblemFields := c6_pf_mid, err := [.prob c6_pf_inner] },
       c6_inner_problem] := by
    rw [problemChain_eq]
    simp only [c6_chain, errorsAsProblem]
    rw [problemChain_eq]
    simp only [errorsAsProblem]
    rw [problemChain_eq]
    simp only [errorsAsProblem]
    rw [problemChain_eq]
    simp only [errorsAsProblem]
    rfl
  rw [hchain]
  decide

/-! ## Claim C1 -/

def c1_gen : Generator := { Translator := some (fun _ => "S") }

def c1_builder : Builder :=
  { Generator := some c1_gen, detailKey := some "k", detail := "lit" }

def c1_gent : Generator := { Translator := some (fun _ => "T") }

def c1_builder_title : Builder :=
  { Generator := some c1_gent, titleKey := some "k", title := "tlit" }

def c1_gen_nil : Generator := { Translator := none }

def c1_builder_nil : Builder :=
  { Generator := some c1_gen_nil, detailKey := some "k", detail := "lit" }

/-- C1: the claim states that with a non-nil Translator returning a
non-empty string `s` for the explicit detail-key (or title-key), the
resolved detail (or title) equals `s`, and that a nil Translator (or an
empty result) merely falls through without failing. The code does the
opposite on both counts: with a Translator present it returns the literal
fallback ("lit", not "S"; "tlit", not "T"), and with a nil Translator
resolution panics (build = none) instead of falling through. This theorem
evaluates the faithful embedding at those failing inputs. -/
theorem c1_translation_defect :
    ((Builder.resolveProblem env0 c1_builder).map (fun p => p.Detail)
        = some "lit") ∧
    "lit" ≠ "S" ∧
    ((Builder.resolveProblem env0 c1_builder_title).map (fun p => p.Title)
        = some "tlit") ∧
    "tlit" ≠ "T" ∧
    Builder.resolveProblem env0 c1_builder_nil = none := by
  exact ⟨rfl, by decide, rfl, by decide, rfl⟩

/-! ## Claim C2 -/

def c2cex_gen : Generator :=
  { Translator := some (fun k => if k = some "dk" then "TRANSLATED" else "") }

def c2cex_builder : Builder :=
  { Generator := some c2cex_gen
    detailKey := some "dk"
    detail := "explicit-literal"
    problem := { Detail := "inherited" }
    defn := { Detail := "default" } }

/-- C2 counterexample: the claim ranks the translated explicit detail-key
above the explicit literal detail, but resolving a Builder whose Translator
returns "TRANSLATED" for its explicit detail-key yields the explicit
literal instead. -/
theorem c2_counterexample :
    ((Builder.resolveProblem env0 c2cex_builder).map (fun p => p.Detail)
        = some "explicit-literal") ∧
    (c2cex_gen.Translator.map (fun t => t c2cex_builder.detailKey)
        = some "TRANSLATED") ∧
    "explicit-literal" ≠ "TRANSLATED" := by
  exact ⟨rfl, rfl, by decide⟩

/-- C2 (amended): whenever resolution succeeds (which requires a non-nil
Translator), a non-empty/non-zero explicit override wins every precedence
chain — code, detail, title, type-URI, status, instance, extensions and log
level — regardless of the conflicting values on the inherited Problem, the
Definition or its Type; for detail and title the effective top tier is the
explicit literal, the translated-key tier never winning because of the
translateOrElse defect recorded with C1. -/
theorem c2_override_law {env : Env} {b : Builder} {p : Problem}
    (h : Builder.resolveProblem env b = some p) :
    (b.code ≠ "" → p.Code = b.code) ∧
    (b.detail ≠ "" → p.Detail = b.detail) ∧
    (b.title ≠ "" → p.Title = b.title) ∧
    (b.typeURI ≠ "" → p.TypeUri = b.typeURI) ∧
    (b.status ≠ 0 → p.Status = b.status) ∧
    (b.instanceURI ≠ "" → p.Instance = b.instanceURI) ∧
    (∀ m, b.extensions = some m → p.Extensions = some m) ∧
    (b.logLevel ≠ 0 → p.logInfo.Level = b.logLevel) := by
  unfold Builder.resolveProblem at h
  cases hb : b.build env 0 0 1 with
  | none =>
    rw [hb] at h
    exact Option.noConfusion h
  | some r =>
    obtain ⟨q, b', sc', uc'⟩ := r
    rw [hb] at h
    have hqp : q = p := Option.some.inj h
    subst hqp
    obtain ⟨hc, hd, he, hi, hs, hti, hty, hl, -⟩ := build_fields hb
    refine ⟨?_, ?_, ?_, ?_, ?_, ?_, ?_, ?_⟩
    · intro hne
      rw [hc, Builder.buildCode, firstNonZeroValue_cons_ne _ _ _ hne]
    · intro hne
      simp [hd, hne]
    · intro hne
      simp [hti, hne]
    · intro hne
      rw [hty, Builder.buildType, firstNonZeroValue_cons_ne _ _ _ hne]
    · intro hne
      rw [hs, Builder.buildStatus, firstNonZeroValue_cons_ne _ _ _ hne]
    · intro hne
      rw [hi, Builder.buildInstance, firstNonZeroValue_cons_ne _ _ _ hne]
    · intro m hm
      rw [he, Builder.buildExtensions, hm]
      rfl
    · intro hne
      rw [hl, firstNonZeroValue_cons_ne _ _ _ hne]

def c2w_builder : Builder :=
  { Generator := some { Translator := some noopTranslate
                        Typer := some (fun _ => "typer-uri")
                        LogLeveler := some (fun _ => 9) }
    code := "EXP-1"
    detail := "exp-detail"
    title := "exp-title"
    typeURI := "exp-type"
    status := 418
    instanceURI := "exp-inst"
    extensions := some [("k", 1)]
    logLevel := 2
    problem := { Code := "INH-1"
                 Detail := "inh"
                 Title := "inh-t"
                 TypeUri := "inh-type"
                 Status := 500
                 Instance := "inh-inst"
                 Extensions := some [("i", 2)]
                 logInfo := { Level := 4 } }
    defn := { Code := "DEF-1"
              Detail := "def"
              Instance := "def-inst"
              Extensions := some [("d", 3)]
              DType := { Title := "def-t"
                         URI := "def-type"
                         Status := 503
                         LogLevel := 3 } } }

def c2w_problem : Problem :=
  { Code := "EXP-1"
    Detail := "exp-detail"
    Extensions := some [("k", 1)]
    Instance := "exp-inst"
    Status := 418
    Title := "exp-title"
    TypeUri := "exp-type"
    logInfo := { Level := 2 } }

theorem c2_override_law_witness :
    c2w_builder.code ≠ "" ∧ c2w_problem.Code = c2w_builder.code ∧
    c2w_builder.detail ≠ "" ∧ c2w_problem.Detail = c2w_builder.detail ∧
    c2w_builder.title ≠ "" ∧ c2w_problem.Title = c2w_builder.title ∧
    c2w_builder.typeURI ≠ "" ∧ c2w_problem.TypeUri = c2w_builder.typeURI ∧
    c2w_builder.status ≠ 0 ∧ c2w_problem.Status = c2w_builder.status ∧
    c2w_builder.instanceURI ≠ "" ∧
    c2w_problem.Instance = c2w_builder.instanceURI ∧
    c2w_builder.extensions = some [("k", 1)] ∧
    c2w_problem.Extensions = some [("k", 1)] ∧
    c2w_builder.logLevel ≠ 0 ∧
    c2w_problem.logInfo.Level = c2w_builder.logLevel := by
  have h := c2_override_law
    (h := (rfl : Builder.resolveProblem env0 c2w_builder = some c2w_problem))
  exact ⟨by decide, h.1 (by decide), by decide, h.2.1 (by decide),
    by decide, h.2.2.1 (by decide), by decide, h.2.2.2.1 (by decide),
    by decide, h.2.2.2.2.1 (by decide), by decide,
    h.2.2.2.2.2.1 (by decide), rfl, h.2.2.2.2.2.2.1 _ rfl,
    by decide, h.2.2.2.2.2.2.2 (by decide)⟩

/-! ## Claim C7 -/

def c7cex_builder : Builder :=
  { Generator := some { Translator := some noopTranslate
                        Typer := some (fun _ => "") }
    defn := { DType := { URI := "x" } } }

/-- C7 counterexample: the claim says that a configured
type-override-function returning an empty string falls through to
`Type.URI`; resolving a Builder whose Typer returns "" while
`Type.URI = "x"` instead yields the fixed default "about:blank". -/
theorem c7_counterexample :
    ((Builder.resolveProblem env0 c7cex_builder).map (fun p => p.TypeUri)
        = some DefaultTypeURI) ∧
    c7cex_builder.defn.DType.URI = "x" ∧
    DefaultTypeURI ≠ "x" := by
  exact ⟨rfl, rfl, by decide⟩

/-- C7 (amended): the resolved type-URI is the first non-empty of: explicit
override, inherited type, `typeURI(Type)` — which is the Typer's result
when a Typer is configured and `Type.URI` only otherwise — and the fixed
default; in particular a configured Typer returning an empty string falls
through to the fixed default, never to `Type.URI`. -/
theorem c7_type_chain {env : Env} {b : Builder} {p : Problem}
    (h : Builder.resolveProblem env b = some p) :
    p.TypeUri = firstNonZeroValue ""
      [b.typeURI, b.problem.TypeUri, b.resolvedGen.typeURI b.defn.DType,
       DefaultTypeURI] ∧
    (∀ tp, b.resolvedGen.Typer = some tp → tp b.defn.DType = "" →
      b.typeURI = "" → b.problem.TypeUri = "" → p.TypeUri = DefaultTypeURI) := by
  unfold Builder.resolveProblem at h
  cases hb : b.build env 0 0 1 with
  | none =>
    rw [hb] at h
    exact Option.noConfusion h
  | some r =>
    obtain ⟨q, b', sc', uc'⟩ := r
    rw [hb] at h
    have hqp : q = p := Option.some.inj h
    subst hqp
    obtain ⟨-, -, -, -, -, -, hty, -, -⟩ := build_fields hb
    constructor
    · exact hty
    · intro tp htp h0 h1 h2
      rw [hty]
      simp [Builder.buildType, Generator.typeURI, htp, h0, h1, h2,
        firstNonZeroValue]
      intro hfalse
      exact absurd hfalse (by decide)

def c7w_builder : Builder :=
  { Generator := some { Translator := some noopTranslate }
    defn := { DType := { URI := "x" } } }

def c7w_problem : Problem :=
  { Status := 500, Title := DefaultTitle, TypeUri := "x" }

theorem c7_type_chain_witness :
    c7w_problem.TypeUri = firstNonZeroValue ""
      [c7w_builder.typeURI, c7w_builder.problem.TypeUri,
       c7w_builder.resolvedGen.typeURI c7w_builder.defn.DType,
       DefaultTypeURI] ∧
    c7w_problem.TypeUri = "x" := by
  have h := c7_type_chain
    (h := (rfl : Builder.resolveProblem env0 c7w_builder = some c7w_problem))
  exact ⟨h.1, rfl⟩

/-! ## Claim C8 -/

def c8_noop_builder : Builder :=
  { Generator := some { Translator := some noopTranslate } }

/-- C8: the claim says a minimally configured Builder — no overrides, empty
Definition and Type, no wrapped Problem, nil translator — resolves to a
Problem with non-empty Title (the fixed default) and non-empty Type (the
"about:blank" default). With a nil Translator the code instead panics
inside translateOrElse (the defect recorded with C1), so no Problem is
produced at all: `build` is `none` for the zero Builder (whose resolved
Generator is DefaultGenerator with its nil Translator). Once the panic is
avoided by supplying a no-op Translator, the claimed defaults do appear. -/
theorem c8_minimal_builder :
    Builder.resolveProblem env0 {} = none ∧
    Builder.resolveProblem env0 { Generator := some DefaultGenerator } = none ∧
    ((Builder.resolveProblem env0 c8_noop_builder).map
        (fun p => (p.Title, p.TypeUri))
      = some (DefaultTitle, DefaultTypeURI)) ∧
    DefaultTitle ≠ "" ∧ DefaultTypeURI ≠ "" := by
  exact ⟨rfl, rfl, rfl, by decide, by decide⟩

/-! ## Claim C9 -/

def c9_problem : Problem := { Code := "USER-404" }

def c9_problem_bad : Problem := { Code := "USER-xyz" }

/-- C9: the claim says HasCodeNS / HasCodeValue (default equals operator)
return true exactly when the Problem's Code parses successfully and the
parsed namespace / value equals the argument. In the code the conjunction
tests `err != nil` instead of `err == nil`: on the Code "USER-404" —
which parses successfully to namespace "USER" and value 404 — both
matchers return false, while on the unparseable "USER-xyz" the namespace
matcher returns true from partially-recovered data. -/
theorem c9_code_matchers_inverted :
    Coder.Parse DefaultGenerator.Coder "USER-404"
      = ({ Code := "USER-404", NS := "USER", Value := 404 }, none) ∧
    HasCodeNSUsing DefaultGenerator "USER" [] c9_problem = false ∧
    HasCodeValueUsing DefaultGenerator 404 [] c9_problem = false ∧
    HasCodeNSUsing DefaultGenerator "USER" [] c9_problem_bad = true := by
  exact ⟨rfl, rfl, rfl, rfl⟩

/-! ## Claim C10 -/

/-- C10: Reset keeps the Builder's Generator and context and returns every
other accumulator field to its zero state, so the reset Builder is exactly
a fresh Builder carrying the same Generator and context — and therefore
resolves identically to one. -/
theorem c10_reset_frame (b : Builder) (env : Env) (sc uc : Nat) (skip : Int) :
    b.Reset.Generator = b.Generator ∧
    b.Reset.ctx = b.ctx ∧
    b.Reset = { Generator := b.Generator, ctx := b.ctx } ∧
    b.Reset.build env sc uc skip =
      ({ Generator := b.Generator, ctx := b.ctx } : Builder).build env sc uc skip := by
  exact ⟨rfl, rfl, rfl, rfl⟩

end GoProblem

namespace GoProblem

theorem getStack_ne (env : Env) (b : Builder) (sc : Nat) (skip : Int)
    (hT : ∀ i s, env.take i s ≠ "") :
    (getStack env b sc skip).1 ≠ "" := by
  unfold getStack
  split
  · assumption
  · split
    · assumption
    · split
      · assumption
      · exact hT _ _

theorem getUUID_ne (env : Env) (g : Generator) (b : Builder) (uc : Nat)
    (hU : ∀ i, g.uuid env i ≠ "") :
    (getUUID env g b uc).1 ≠ "" := by
  unfold getUUID
  split
  · assumption
  · split
    · assumption
    · split
      · assumption
      · exact hU _

theorem buildStack_cached_spec (env : Env) (g : Generator) (b : Builder)
    (sc : Nat) (skip : Int)
    (hs : checkFlag (b.stackFlag.getD g.StackFlag) FlagField → b.stack ≠ "") :
    buildStack env g b sc skip =
      ((if checkFlag (b.stackFlag.getD g.StackFlag) FlagField then b.stack
        else ""), b, sc) := by
  unfold buildStack
  by_cases h : checkFlag (b.stackFlag.getD g.StackFlag) FlagField
  · rw [if_pos h, if_pos h, getStack_cached env b sc (skip + 1) (hs h)]
  · rw [if_neg h, if_neg h]

theorem buildUUID_cached_spec (env : Env) (g : Generator) (b : Builder)
    (uc : Nat)
    (hu : checkFlag (b.uuidFlag.getD g.UUIDFlag) FlagField → b.uuid ≠ "") :
    buildUUID env g b uc =
      ((if checkFlag (b.uuidFlag.getD g.UUIDFlag) FlagField then b.uuid
        else ""), b, uc) := by
  unfold buildUUID
  by_cases h : checkFlag (b.uuidFlag.getD g.UUIDFlag) FlagField
  · rw [if_pos h, if_pos h, getUUID_cached env g b uc (hu h)]
  · rw [if_neg h, if_neg h]

theorem buildLogInfo_cached_spec (env : Env) (g : Generator) (b : Builder)
    (sc uc : Nat) (skip : Int)
    (hs : checkFlag (b.stackFlag.getD g.StackFlag) FlagLog → b.stack ≠ "")
    (hu : checkFlag (b.uuidFlag.getD g.UUIDFlag) FlagLog → b.uuid ≠ "") :
    buildLogInfo env g b sc uc skip =
      ({ Level := firstNonZeroValue 0
            [b.logLevel, b.problem.logInfo.Level, g.logLevel b.defn.DType]
         Stack := if checkFlag (b.stackFlag.getD g.StackFlag) FlagLog
            then b.stack else ""
         UUID := if checkFlag (b.uuidFlag.getD g.UUIDFlag) FlagLog
            then b.uuid else "" }, b, sc, uc) := by
  unfold buildLogInfo
  by_cases h1 : checkFlag (b.stackFlag.getD g.StackFlag) FlagLog
  · rw [if_pos h1]
    rw [getStack_cached env b sc (skip + 1) (hs h1)]
    by_cases h2 : checkFlag (b.uuidFlag.getD g.UUIDFlag) FlagLog
    · simp only [if_pos h1, if_pos h2,
        getUUID_cached env g b uc (hu h2)]
    · simp only [if_pos h1, if_neg h2]
  · rw [if_neg h1]
    by_cases h2 : checkFlag (b.uuidFlag.getD g.UUIDFlag) FlagLog
    · simp only [if_neg h1, if_pos h2,
        getUUID_cached env g b uc (hu h2)]
    · simp only [if_neg h1, if_neg h2]

end GoProblem

namespace GoProblem

theorem build_cached (env : Env) (B : Builder) (sc uc : Nat) (skip : Int)
    (t : Option String → String) (ht : B.resolvedGen.Translator = some t)
    (hs : checkFlag (B.stackFlag.getD B.resolvedGen.StackFlag) FlagField ∨
        checkFlag (B.stackFlag.getD B.resolvedGen.StackFlag) FlagLog →
        B.stack ≠ "")
    (hu : checkFlag (B.uuidFlag.getD B.resolvedGen.UUIDFlag) FlagField ∨
        checkFlag (B.uuidFlag.getD B.resolvedGen.UUIDFlag) FlagLog →
        B.uuid ≠ "") :
    ∃ p, B.build env sc uc skip = some (p, B, sc, uc) ∧
      p.Stack = (if checkFlag (B.stackFlag.getD B.resolvedGen.StackFlag)
          FlagField then B.stack else "") ∧
      p.logInfo.Stack = (if checkFlag (B.stackFlag.getD B.resolvedGen.StackFlag)
          FlagLog then B.stack else "") ∧
      p.UUID = (if checkFlag (B.uuidFlag.getD B.resolvedGen.UUIDFlag)
          FlagField then B.uuid else "") ∧
      p.logInfo.UUID = (if checkFlag (B.uuidFlag.getD B.resolvedGen.UUIDFlag)
          FlagLog then B.uuid else "") := by
  simp only [Builder.build]
  rw [buildDetail_eq t ht,
      buildStack_cached_spec env B.resolvedGen B sc (skip + 1)
        (fun h => hs (Or.inl h))]
  dsimp only
  rw [buildTitle_eq t ht,
      buildUUID_cached_spec env B.resolvedGen B uc (fun h => hu (Or.inl h))]
  dsimp only
  rw [buildLogInfo_cached_spec env B.resolvedGen B sc uc (skip + 1)
      (fun h => hs (Or.inr h)) (fun h => hu (Or.inr h))]
  dsimp only
  exact ⟨_, rfl, rfl, rfl, rfl, rfl⟩

end GoProblem

namespace GoProblem

theorem stackGate_fill (env : Env) (A : Builder) (sc : Nat) (skip : Int)
    (c : Bool) (hT : ∀ i s, env.take i s ≠ "") :
    ∃ bA scA, (if c then getStack env A sc skip else ("", A, sc))
        = ((if c then bA.stack else ""), bA, scA) ∧
      bA = { A with stack := bA.stack } ∧
      (c = true → bA.stack ≠ "") ∧
      (A.stack ≠ "" → bA.stack = A.stack) ∧
      (c = false → bA = A ∧ scA = sc) := by
  cases c
  · exact ⟨A, sc, rfl, rfl, by simp, fun _ => rfl, fun _ => ⟨rfl, rfl⟩⟩
  · have hqb := getStack_builder env A sc skip
    have hqs : (getStack env A sc skip).2.1.stack
        = (getStack env A sc skip).1 := by rw [hqb]
    refine ⟨(getStack env A sc skip).2.1, (getStack env A sc skip).2.2,
      ?_, ?_, ?_, ?_, by simp⟩
    · rw [if_pos rfl, if_pos rfl, hqs]
    · rw [hqs]
      exact hqb
    · intro hc
      rw [hqs]
      exact getStack_ne env A sc skip hT
    · intro hA
      rw [getStack_cached env A sc skip hA]

end GoProblem

namespace GoProblem

theorem uuidGate_fill (env : Env) (g : Generator) (A : Builder) (uc : Nat)
    (c : Bool) (hU : ∀ i, g.uuid env i ≠ "") :
    ∃ bA ucA, (if c then getUUID env g A uc else ("", A, uc))
        = ((if c then bA.uuid else ""), bA, ucA) ∧
      bA = { A with uuid := bA.uuid } ∧
      (c = true → bA.uuid ≠ "") ∧
      (A.uuid ≠ "" → bA.uuid = A.uuid) ∧
      (c = false → bA = A ∧ ucA = uc) := by
  cases c
  · exact ⟨A, uc, rfl, rfl, by simp, fun _ => rfl, fun _ => ⟨rfl, rfl⟩⟩
  · have hqb := getUUID_builder env g A uc
    have hqs : (getUUID env g A uc).2.1.uuid
        = (getUUID env g A uc).1 := by rw [hqb]
    refine ⟨(getUUID env g A uc).2.1, (getUUID env g A uc).2.2,
      ?_, ?_, ?_, ?_, by simp⟩
    · rw [if_pos rfl, if_pos rfl, hqs]
    · rw [hqs]
      exact hqb
    · intro hc
      rw [hqs]
      exact getUUID_ne env g A uc hU
    · intro hA
      rw [getUUID_cached env g A uc hA]

end GoProblem

namespace GoProblem

theorem buildStack_fill (env : Env) (g : Generator) (B : Builder) (sc : Nat)
    (skip : Int) (hT : ∀ i s, env.take i s ≠ "") :
    ∃ bA scA, buildStack env g B sc skip
        = ((if checkFlag (B.stackFlag.getD g.StackFlag) FlagField then
            bA.stack else ""), bA, scA) ∧
      bA = { B with stack := bA.stack } ∧
      (checkFlag (B.stackFlag.getD g.StackFlag) FlagField = true →
        bA.stack ≠ "") ∧
      (B.stack ≠ "" → bA.stack = B.stack) ∧
      (checkFlag (B.stackFlag.getD g.StackFlag) FlagField = false →
        bA = B ∧ scA = sc) := by
  unfold buildStack
  exact stackGate_fill env B sc (skip + 1)
    (checkFlag (B.stackFlag.getD g.StackFlag) FlagField) hT

theorem buildUUID_fill (env : Env) (g : Generator) (B : Builder) (uc : Nat)
    (hU : ∀ i, g.uuid env i ≠ "") :
    ∃ bA ucA, buildUUID env g B uc
        = ((if checkFlag (B.uuidFlag.getD g.UUIDFlag) FlagField then
            bA.uuid else ""), bA, ucA) ∧
      bA = { B with uuid := bA.uuid } ∧
      (checkFlag (B.uuidFlag.getD g.UUIDFlag) FlagField = true →
        bA.uuid ≠ "") ∧
      (B.uuid ≠ "" → bA.uuid = B.uuid) ∧
      (checkFlag (B.uuidFlag.getD g.UUIDFlag) FlagField = false →
        bA = B ∧ ucA = uc) := by
  unfold buildUUID
  exact uuidGate_fill env g B uc
    (checkFlag (B.uuidFlag.getD g.UUIDFlag) FlagField) hU

theorem buildLogInfo_fill (env : Env) (g : Generator) (B : Builder)
    (sc uc : Nat) (skip : Int)
    (hT : ∀ i s, env.take i s ≠ "") (hU : ∀ i, g.uuid env i ≠ "") :
    ∃ bC scC ucC, buildLogInfo env g B sc uc skip =
      ({ Level := firstNonZeroValue 0
            [B.logLevel, B.problem.logInfo.Level, g.logLevel B.defn.DType]
         Stack := if checkFlag (B.stackFlag.getD g.StackFlag) FlagLog then
            bC.stack else ""
         UUID := if checkFlag (B.uuidFlag.getD g.UUIDFlag) FlagLog then
            bC.uuid else "" }, bC, scC, ucC) ∧
      bC = { B with stack := bC.stack, uuid := bC.uuid } ∧
      (checkFlag (B.stackFlag.getD g.StackFlag) FlagLog = true →
        bC.stack ≠ "") ∧
      (B.stack ≠ "" → bC.stack = B.stack) ∧
      (checkFlag (B.stackFlag.getD g.StackFlag) FlagLog = false →
        bC.stack = B.stack) ∧
      (checkFlag (B.uuidFlag.getD g.UUIDFlag) FlagLog = true →
        bC.uuid ≠ "") ∧
      (B.uuid ≠ "" → bC.uuid = B.uuid) ∧
      (checkFlag (B.uuidFlag.getD g.UUIDFlag) FlagLog = false →
        bC.uuid = B.uuid) := by
  unfold buildLogInfo
  obtain ⟨bA, scA, he1, hbA, hne1, hpres1, hoff1⟩ :=
    stackGate_fill env B sc (skip + 1)
      (checkFlag (B.stackFlag.getD g.StackFlag) FlagLog) hT
  rw [he1]
  dsimp only
  have hAflag : bA.uuidFlag = B.uuidFlag := by rw [hbA]
  have hAuuid : bA.uuid = B.uuid := by rw [hbA]
  rw [hAflag]
  obtain ⟨bB, ucB, he2, hbB, hne2, hpres2, hoff2⟩ :=
    uuidGate_fill env g bA uc
      (checkFlag (B.uuidFlag.getD g.UUIDFlag) FlagLog) hU
  rw [he2]
  dsimp only
  have hbBstack : bB.stack = bA.stack := by rw [hbB]
  refine ⟨bB, scA, ucB, ?_, ?_, ?_, ?_, ?_, hne2, ?_, ?_⟩
  · rw [hbBstack]
  · rw [hbB, hbA]
  · intro h
    rw [hbBstack]
    exact hne1 h
  · intro h
    rw [hbBstack]
    exact hpres1 h
  · intro h
    rw [hbBstack, (hoff1 h).1]
  · intro h
    rw [hpres2 (by rw [hAuuid]; exact h), hAuuid]
  · intro h
    rw [(hoff2 h).1, hAuuid]

end GoProblem

namespace GoProblem

theorem build_fill (env : Env) (b : Builder) (sc uc : Nat) (skip : Int)
    (hT : ∀ i s, env.take i s ≠ "")
    (hU : ∀ i, b.resolvedGen.uuid env i ≠ "")
    (t : Option String → String) (ht : b.resolvedGen.Translator = some t) :
    ∃ p1 b1 sc1 uc1, b.build env sc uc skip = some (p1, b1, sc1, uc1) ∧
      b1 = { b with stack := b1.stack, uuid := b1.uuid } ∧
      (checkFlag (b.stackFlag.getD b.resolvedGen.StackFlag) FlagField = true ∨
       checkFlag (b.stackFlag.getD b.resolvedGen.StackFlag) FlagLog = true →
        b1.stack ≠ "") ∧
      (checkFlag (b.uuidFlag.getD b.resolvedGen.UUIDFlag) FlagField = true ∨
       checkFlag (b.uuidFlag.getD b.resolvedGen.UUIDFlag) FlagLog = true →
        b1.uuid ≠ "") ∧
      p1.Stack = (if checkFlag (b.stackFlag.getD b.resolvedGen.StackFlag)
          FlagField then b1.stack else "") ∧
      p1.logInfo.Stack = (if checkFlag (b.stackFlag.getD b.resolvedGen.StackFlag)
          FlagLog then b1.stack else "") ∧
      p1.UUID = (if checkFlag (b.uuidFlag.getD b.resolvedGen.UUIDFlag)
          FlagField then b1.uuid else "") ∧
      p1.logInfo.UUID = (if checkFlag (b.uuidFlag.getD b.resolvedGen.UUIDFlag)
          FlagLog then b1.uuid else "") := by
  simp only [Builder.build]
  rw [buildDetail_eq t ht]
  obtain ⟨bA, scA, he1, hbA, hne1, hpres1, hoff1⟩ :=
    buildStack_fill env b.resolvedGen b sc (skip + 1) hT
  rw [he1]
  dsimp only
  rw [buildTitle_eq t ht]
  have hAuuidFlag : bA.uuidFlag = b.uuidFlag := by rw [hbA]
  have hAuuid : bA.uuid = b.uuid := by rw [hbA]
  obtain ⟨bB, ucB, he2, hbB, hne2, hpres2, hoff2⟩ :=
    buildUUID_fill env b.resolvedGen bA uc hU
  rw [hAuuidFlag] at he2 hne2
  rw [he2]
  dsimp only
  have hBstack : bB.stack = bA.stack := by rw [hbB]
  have hBstackFlag : bB.stackFlag = b.stackFlag := by rw [hbB, hbA]
  have hBuuidFlag : bB.uuidFlag = b.uuidFlag := by rw [hbB, hbA]
  obtain ⟨bC, scC, ucC, he3, hbC, hne3, hpres3, hoff3, hne4, hpres4, hoff4⟩ :=
    buildLogInfo_fill env b.resolvedGen bB scA ucB (skip + 1) hT hU
  rw [hBstackFlag] at he3 hne3 hoff3
  rw [hBuuidFlag] at he3 hne4 hoff4
  rw [he3]
  dsimp only
  refine ⟨_, bC, scC, ucC, rfl, ?_, ?_, ?_, ?_, rfl, ?_, rfl⟩
  · rw [hbC, hbB, hbA]
  · intro h
    cases h with
    | inl h =>
      have h1 : bB.stack ≠ "" := by
        rw [hBstack]
        exact hne1 h
      rw [hpres3 h1, hBstack]
      exact hne1 h
    | inr h => exact hne3 h
  · intro h
    cases h with
    | inl h =>
      have h1 : bB.uuid ≠ "" := hne2 h
      rw [hpres4 h1]
      exact h1
    | inr h => exact hne4 h
  · by_cases h : checkFlag (b.stackFlag.getD b.resolvedGen.StackFlag) FlagField
    · rw [if_pos h, if_pos h]
      have h1 : bB.stack ≠ "" := by
        rw [hBstack]
        exact hne1 h
      rw [hpres3 h1, hBstack]
    · rw [if_neg h, if_neg h]
  · by_cases h : checkFlag (b.uuidFlag.getD b.resolvedGen.UUIDFlag) FlagField
    · rw [if_pos h, if_pos h]
      have h1 : bB.uuid ≠ "" := hne2 h
      rw [hpres4 h1]
    · rw [if_neg h, if_neg h]

end GoProblem

namespace GoProblem

attribute [ext] LogInfo ProblemFields Problem

/-- C4: memoization of generated data. Once a first resolution of a Builder
(with nonempty-string stack and uuid collaborators, and a Translator so the
build succeeds) has computed its stack and uuid, a second resolution of the
returned Builder produces a field-for-field identical Problem, mutates
nothing, and invokes neither the stack capturer nor the uuid generator again
(the call counters are unchanged); whenever both the field and the log
visibility flag are set, the stack (resp. uuid) strings agree across the
field/log split. -/
theorem c4_memoization {env : Env} {b : Builder} {sc uc : Nat} {skip : Int}
    (hT : ∀ i s, env.take i s ≠ "")
    (hU : ∀ i, b.resolvedGen.uuid env i ≠ "")
    {p1 : Problem} {b1 : Builder} {sc1 uc1 : Nat}
    (h1 : b.build env sc uc skip = some (p1, b1, sc1, uc1))
    {p2 : Problem} {b2 : Builder} {sc2 uc2 : Nat}
    (h2 : b1.build env sc1 uc1 skip = some (p2, b2, sc2, uc2)) :
    p1 = p2 ∧ b2 = b1 ∧ sc2 = sc1 ∧ uc2 = uc1 ∧
    (checkFlag (b.stackFlag.getD b.resolvedGen.StackFlag) FlagField = true →
     checkFlag (b.stackFlag.getD b.resolvedGen.StackFlag) FlagLog = true →
     p1.Stack = p1.logInfo.Stack) ∧
    (checkFlag (b.uuidFlag.getD b.resolvedGen.UUIDFlag) FlagField = true →
     checkFlag (b.uuidFlag.getD b.resolvedGen.UUIDFlag) FlagLog = true →
     p1.UUID = p1.logInfo.UUID) := by
  obtain ⟨t, ht⟩ := build_translator h1
  obtain ⟨q1, c1, scf, ucf, heq, hshape, hsne, hune, hS, hLS, hUU, hLU⟩ :=
    build_fill env b sc uc skip hT hU t ht
  rw [heq] at h1
  obtain ⟨hq, hc, hsc, huc⟩ : q1 = p1 ∧ c1 = b1 ∧ scf = sc1 ∧ ucf = uc1 := by
    have := Option.some.inj h1
    exact ⟨congrArg (fun r => r.1) this, congrArg (fun r => r.2.1) this,
      congrArg (fun r => r.2.2.1) this, congrArg (fun r => r.2.2.2) this⟩
  subst hq hc hsc huc
  have hgen : c1.resolvedGen = b.resolvedGen := by rw [hshape]; rfl
  have hsf : c1.stackFlag = b.stackFlag := by rw [hshape]
  have huf : c1.uuidFlag = b.uuidFlag := by rw [hshape]
  have ht' : c1.resolvedGen.Translator = some t := by rw [hgen]; exact ht
  obtain ⟨p2x, heq2, hS2, hLS2, hUU2, hLU2⟩ :=
    build_cached env c1 scf ucf skip t ht'
      (by rw [hgen, hsf]; exact hsne) (by rw [hgen, huf]; exact hune)
  rw [heq2] at h2
  obtain ⟨hp2, hb2, hsc2, huc2⟩ : p2x = p2 ∧ c1 = b2 ∧ scf = sc2 ∧ ucf = uc2 := by
    have := Option.some.inj h2
    exact ⟨congrArg (fun r => r.1) this, congrArg (fun r => r.2.1) this,
      congrArg (fun r => r.2.2.1) this, congrArg (fun r => r.2.2.2) this⟩
  subst hp2
  refine ⟨?_, hb2.symm, hsc2.symm, huc2.symm, ?_, ?_⟩
  · -- p1 = p2, field by field
    rw [hgen, hsf] at hS2 hLS2
    rw [hgen, huf] at hUU2 hLU2
    obtain ⟨f1c, f1d, f1e, f1i, f1s, f1t, f1y, f1l, f1r⟩ := build_fields heq
    obtain ⟨f2c, f2d, f2e, f2i, f2s, f2t, f2y, f2l, f2r⟩ := build_fields heq2
    have hb1eq : c1.buildCode = b.buildCode := by rw [hshape]; rfl
    have hb1d : c1.detail = b.detail := by rw [hshape]
    have hb1pd : c1.problem = b.problem := by rw [hshape]
    have hb1dd : c1.defn = b.defn := by rw [hshape]
    have hb1e : c1.buildExtensions = b.buildExtensions := by rw [hshape]; rfl
    have hb1i : c1.buildInstance = b.buildInstance := by rw [hshape]; rfl
    have hb1st : c1.buildStatus = b.buildStatus := by rw [hshape]; rfl
    have hb1ti : c1.title = b.title := by rw [hshape]
    have hb1ty : c1.buildType c1.resolvedGen = b.buildType b.resolvedGen := by rw [hshape]; rfl
    have hb1ll : c1.logLevel = b.logLevel := by rw [hshape]
    have hb1err : c1.err = b.err := by rw [hshape]
    apply Problem.ext
    · rw [f1c, f2c, hb1eq]
    · rw [f1d, f2d, hb1d, hb1pd, hb1dd]
    · rw [f1e, f2e, hb1e]
    · rw [f1i, f2i, hb1i]
    · rw [hS, hS2]
    · rw [f1s, f2s, hb1st]
    · rw [f1t, f2t, hb1ti, hb1pd, hb1dd]
    · rw [f1y, f2y, hb1ty]
    · rw [hUU, hUU2]
    · apply LogInfo.ext
      · rw [f1l, f2l, hb1ll, hb1pd, hb1dd, hgen]
      · rw [hLS, hLS2]
      · rw [hLU, hLU2]
    · rw [f1r, f2r, hb1err]
  · intro hf hl
    rw [hS, hLS, if_pos hf, if_pos hl]
  · intro hf hl
    rw [hUU, hLU, if_pos hf, if_pos hl]

end GoProblem

namespace GoProblem

/-- A concrete Generator demanding both field and log visibility for stack
and uuid, with the no-op translator to avoid the C1 panic. -/
def c4w_g : GoProblem.Generator :=
  { Translator := some noopTranslate
    StackFlag := 3
    UUIDFlag := 3 }

def c4w_b : Builder := { Generator := some c4w_g }

/-- The Builder after the first build: both lazy caches filled. -/
def c4w_b1 : Builder :=
  { c4w_b with stack := "stack0"
               uuid := "uuid0" }

/-- The Problem produced by the first (and second) build of `c4w_b`. -/
def c4w_p : Problem :=
  { Code := ""
    Detail := ""
    Extensions := none
    Instance := ""
    Stack := "stack0"
    Status := 500
    Title := "Unknown Error"
    TypeUri := "about:blank"
    UUID := "uuid0"
    logInfo := { Level := 0, Stack := "stack0", UUID := "uuid0" }
    err := [] }

theorem env0_take_ne : ∀ (i : Nat) (s : Int), env0.take i s ≠ "" := by
  intro i s h
  have h' : "stack" ++ toString i = "" := h
  have hlen := congrArg String.length h'
  rw [String.length_append] at hlen
  simp at hlen
  exact absurd hlen.1 (by decide)

theorem c4w_uuid_ne : ∀ i, c4w_b.resolvedGen.uuid env0 i ≠ "" := by
  intro i h
  have h' : "uuid" ++ toString i = "" := h
  have hlen := congrArg String.length h'
  rw [String.length_append] at hlen
  simp at hlen
  exact absurd hlen.1 (by decide)

theorem c4_memoization_witness :
    (∀ i s, env0.take i s ≠ "") ∧ (∀ i, c4w_b.resolvedGen.uuid env0 i ≠ "") ∧
    c4w_b.build env0 0 0 1 = some (c4w_p, c4w_b1, 1, 1) ∧
    c4w_b1.build env0 1 1 1 = some (c4w_p, c4w_b1, 1, 1) ∧
    c4w_p.Stack = c4w_p.logInfo.Stack ∧ c4w_p.UUID = c4w_p.logInfo.UUID := by
  have h1 : c4w_b.build env0 0 0 1 = some (c4w_p, c4w_b1, 1, 1) := by rfl
  have h2 : c4w_b1.build env0 1 1 1 = some (c4w_p, c4w_b1, 1, 1) := by rfl
  have h := c4_memoization env0_take_ne c4w_uuid_ne h1 h2
  exact ⟨env0_take_ne, c4w_uuid_ne, h1, h2,
    h.2.2.2.2.1 (by decide) (by decide), h.2.2.2.2.2 (by decide) (by decide)⟩

end GoProblem
